import Mathlib

/-!
# Verification of the cherry-studio web-model integration

Shallow embedding of the three components of the web-model request
protocol:

* the Observer (`src/main/preload/webModelPreload.ts`): per-request
  polling state machine (`startPolling`, `cleanupRequest`,
  `cancelRequest`, `waitForSelector`, `submitPrompt`, the
  `web-model:prompt` handler);
* the Broker (`WebModelService`): pending-request routing
  (`forwardChunk`, the `web-model:error` intake, `cancel`,
  `ensureWindow`);
* the Façade (`WebModelClient`): listener demultiplexing
  (`handleEvent`, `cancel`).

JS `Map`s are modelled as association lists with `mapGet`/`mapSet`/
`mapDelete` matching the observable `Map` semantics.  JS truthiness of
optional strings and booleans is made explicit (`truthyStr`,
`truthyBool`): an empty string and a missing field are falsy.  Clock
reads are modelled as one `now` value per poll tick; timer callbacks of
`setInterval` become a fold over a list of page samples, and
`clearInterval` is modelled by stopping the fold (the tick that clears
the interval is the last tick that runs).
-/

namespace WebModel

/-! ## Association-list model of JS Map -/

/-- `Map.get`: the value stored under `k`, if any. -/
def mapGet {α : Type} : List (String × α) → String → Option α
  | [], _ => none
  | (k', v) :: rest, k => if k' = k then some v else mapGet rest k

/-- `Map.set`: store `v` under `k`, replacing any previous entry. -/
def mapSet {α : Type} (m : List (String × α)) (k : String) (v : α) :
    List (String × α) :=
  (k, v) :: m.filter (fun e => e.1 != k)

/-- `Map.delete`: remove the entry under `k`, if any. -/
def mapDelete {α : Type} (m : List (String × α)) (k : String) :
    List (String × α) :=
  m.filter (fun e => e.1 != k)

/-- JS truthiness of an optional string: `undefined` and `""` are falsy. -/
def truthyStr : Option String → Bool
  | some s => s != ""
  | none => false

/-- JS truthiness of an optional boolean: `undefined` is falsy. -/
def truthyBool : Option Bool → Bool
  | some b => b
  | none => false

/-! ## Observer: the polling state machine of `startPolling`

`RequestState` is the record stored in `ACTIVE_REQUESTS`; the interval
handle is modelled by whether the request still takes part in the fold.
A `Sample` is what one tick of the `setInterval` callback reads from the
page: `getLatestAssistantContent()`, `Boolean(findStopButton())`, and
`Date.now()`. -/

structure RequestState where
  lastContent : String
  lastEmit : Nat
  done : Bool
deriving Repr, DecidableEq

structure Sample where
  content : String
  stopVisible : Bool
  now : Nat
deriving Repr, DecidableEq

/-- A payload sent on the `web-model:chunk` channel. -/
structure ChunkEvent where
  requestId : String
  content : String
  done : Bool
deriving Repr, DecidableEq

/-- The state installed by `startPolling` before the first tick. -/
def initialRequestState : RequestState :=
  { lastContent := "", lastEmit := 0, done := false }

/-- First half of the tick body: `if (content && content !== state.lastContent)`
update `lastContent`/`lastEmit` and emit one `done:false` chunk. -/
def contentStep (rid : String) (s : RequestState) (smp : Sample) :
    RequestState × List ChunkEvent :=
  if smp.content ≠ "" ∧ smp.content ≠ s.lastContent then
    ({ s with lastContent := smp.content, lastEmit := smp.now },
      [⟨rid, smp.content, false⟩])
  else (s, [])

/-- One tick of the `setInterval` callback in `startPolling`: the
content update of `contentStep` followed by the completion check on the
updated state.  The result state is `none` when the tick called
`cleanupRequest` (interval cleared, entry deleted): no further tick runs
for this request. -/
def pollTick (rid : String) (s0 : RequestState) (smp : Sample) :
    Option RequestState × List ChunkEvent :=
  if (contentStep rid s0 smp).1.done then
    (some (contentStep rid s0 smp).1, (contentStep rid s0 smp).2)
  else if smp.content = "" ∧ (contentStep rid s0 smp).1.lastEmit = 0 then
    (some (contentStep rid s0 smp).1, (contentStep rid s0 smp).2)
  else if smp.stopVisible = false ∧ (contentStep rid s0 smp).1.lastEmit > 0 ∧
      smp.now - (contentStep rid s0 smp).1.lastEmit > 1500 then
    (none, (contentStep rid s0 smp).2 ++
      [⟨rid, (contentStep rid s0 smp).1.lastContent, true⟩])
  else (some (contentStep rid s0 smp).1, (contentStep rid s0 smp).2)

/-- Fold of `pollTick` over a sample sequence, stopping when the tick
cleared its own interval. -/
def runPollingAux (rid : String) : RequestState → List Sample → List ChunkEvent
  | _, [] => []
  | s, smp :: rest =>
    match pollTick rid s smp with
    | (some s1, evs) => evs ++ runPollingAux rid s1 rest
    | (none, evs) => evs

/-- All chunk events emitted for one request across a sample sequence,
starting from the state installed by `startPolling`. -/
def runPolling (rid : String) (smps : List Sample) : List ChunkEvent :=
  runPollingAux rid initialRequestState smps

/-! ## Claim C1: the four-tick sampling scenario -/

/-- The sample sequence of the claim, read literally: ticks at
t = 0, 400, 800, 2300 ms, in-progress indicator absent from t = 800. -/
def c1Samples : List Sample :=
  [⟨"", true, 0⟩, ⟨"Hi", true, 400⟩, ⟨"Hi there", false, 800⟩,
    ⟨"Hi there", false, 2300⟩]

/-- Same scenario with the fourth tick strictly after t = 2300. -/
def c1SamplesLate : List Sample :=
  [⟨"", true, 0⟩, ⟨"Hi", true, 400⟩, ⟨"Hi there", false, 800⟩,
    ⟨"Hi there", false, 2301⟩]

/-- The event sequence the claim expects. -/
def c1Claimed : List ChunkEvent :=
  [⟨"r1", "Hi", false⟩, ⟨"r1", "Hi there", false⟩, ⟨"r1", "Hi there", true⟩]

/-- C1 counterexample: with the fourth tick at exactly t = 2300, the
quiet-period test `Date.now() - state.lastEmit > 1500` compares
2300 - 800 = 1500, which is not strictly greater than 1500, so the done
event is not emitted and the run produces only the two chunk events. -/
theorem c1_counterexample :
    runPolling "r1" c1Samples =
      [⟨"r1", "Hi", false⟩, ⟨"r1", "Hi there", false⟩] ∧
    runPolling "r1" c1Samples ≠ c1Claimed := by
  constructor
  · rfl
  · decide

/-- C1 amended: with the fourth tick strictly after t = 2300 (here
t = 2301, so that strictly more than 1500 ms have elapsed since the
content change at t = 800), the Observer emits exactly
chunk("Hi"), chunk("Hi there"), done("Hi there") in that order, and the
done event appears only on the fourth tick: the first three ticks alone
emit only the two chunks. -/
theorem c1_amended :
    runPolling "r1" c1SamplesLate = c1Claimed ∧
    runPolling "r1" (c1SamplesLate.take 3) =
      [⟨"r1", "Hi", false⟩, ⟨"r1", "Hi there", false⟩] := by
  constructor
  · rfl
  · rfl

/-! ## Claim C6: empty content throughout never completes -/

/-- A tick that reads empty content while no chunk has ever been emitted
hits the early return and neither emits nor changes state. -/
theorem pollTick_empty_quiet (rid : String) (s : RequestState) (smp : Sample)
    (hc : smp.content = "") (he : s.lastEmit = 0) :
    pollTick rid s smp = (some s, []) := by
  simp [pollTick, contentStep, hc, he]

/-- C6: if the sampled answer text is empty at every tick, the Observer
emits no event at all for the request — no chunk (content stays empty)
and no done event, whatever the in-progress indicator does and however
many ticks run. -/
theorem c6_silent_request_never_completes :
    ∀ (rid : String) (smps : List Sample),
      (∀ smp ∈ smps, smp.content = "") → runPolling rid smps = [] := by
  intro rid smps hall
  have aux : ∀ (l : List Sample) (s : RequestState), s.lastEmit = 0 →
      (∀ smp ∈ l, smp.content = "") → runPollingAux rid s l = [] := by
    intro l
    induction l with
    | nil => intro s _ _; rfl
    | cons smp rest ih =>
      intro s he hl
      have hc : smp.content = "" := hl smp (by simp)
      have hrest : ∀ q ∈ rest, q.content = "" := by
        intro q hq; exact hl q (by simp [hq])
      simp [runPollingAux, pollTick_empty_quiet rid s smp hc he, ih s he hrest]
  exact aux smps initialRequestState rfl hall

/-- C6 witness: a concrete all-empty sample run emits nothing. -/
theorem c6_witness :
    runPolling "r6" [⟨"", true, 0⟩, ⟨"", false, 400⟩, ⟨"", false, 99999⟩] = [] :=
  c6_silent_request_never_completes "r6"
    [⟨"", true, 0⟩, ⟨"", false, 400⟩, ⟨"", false, 99999⟩] (by decide)

/-! ## Claim C2: completion is declared exactly under the quiet-period
condition, emits the done event once, and releases all state -/

/-- Number of `done:true` events in a list. -/
def countDone (evs : List ChunkEvent) : Nat :=
  (evs.filter (fun e => e.done)).length

/-- The events of `contentStep` are never `done:true`. -/
theorem contentStep_events_not_done (rid : String) (s : RequestState)
    (smp : Sample) : ∀ e ∈ (contentStep rid s smp).2, e.done = false := by
  unfold contentStep
  split <;> simp

/-- `contentStep` never touches the `done` flag. -/
theorem contentStep_preserves_done (rid : String) (s : RequestState)
    (smp : Sample) : (contentStep rid s smp).1.done = s.done := by
  unfold contentStep
  split <;> rfl

/-- A tick either keeps the request alive with the content-updated state
and only the content events, or ends it by appending the single
`done:true` event. -/
theorem pollTick_cases (rid : String) (s : RequestState) (smp : Sample) :
    pollTick rid s smp =
        (some (contentStep rid s smp).1, (contentStep rid s smp).2) ∨
      pollTick rid s smp = (none, (contentStep rid s smp).2 ++
        [⟨rid, (contentStep rid s smp).1.lastContent, true⟩]) := by
  unfold pollTick
  split_ifs <;> first
    | exact Or.inl rfl
    | exact Or.inr rfl

/-- Structure of one request's full event list: a prefix of `done:false`
chunks, followed by at most one final `done:true` event carrying the id
of the request. -/
theorem runPollingAux_structure (rid : String) :
    ∀ (smps : List Sample) (s : RequestState),
      ∃ F T, runPollingAux rid s smps = F ++ T ∧
        (∀ e ∈ F, e.done = false) ∧
        (T = [] ∨ ∃ c, T = [⟨rid, c, true⟩]) := by
  intro smps
  induction smps with
  | nil => exact fun s => ⟨[], [], rfl, by simp, Or.inl rfl⟩
  | cons smp rest ih =>
    intro s
    have hev := contentStep_events_not_done rid s smp
    rcases pollTick_cases rid s smp with h | h
    · obtain ⟨F, T, hFT, hF, hT⟩ := ih (contentStep rid s smp).1
      refine ⟨(contentStep rid s smp).2 ++ F, T, ?_, ?_, hT⟩
      · simp [runPollingAux, h, hFT]
      · intro e he
        rcases List.mem_append.mp he with h1 | h1
        · exact hev e h1
        · exact hF e h1
    · refine ⟨(contentStep rid s smp).2,
        [⟨rid, (contentStep rid s smp).1.lastContent, true⟩], ?_, hev,
        Or.inr ⟨(contentStep rid s smp).1.lastContent, rfl⟩⟩
      simp [runPollingAux, h]

/-- If every element of a prefix fails the predicate negation... helper:
`dropWhile` over a list whose first part consists of kept elements. -/
theorem dropWhile_append_of_all {α : Type} (p : α → Bool) :
    ∀ (F T : List α), (∀ e ∈ F, p e = true) →
      (F ++ T).dropWhile p = T.dropWhile p := by
  intro F
  induction F with
  | nil => intro T _; rfl
  | cons a F ih =>
    intro T h
    have ha : p a = true := h a (by simp)
    simp [List.dropWhile, ha]
    exact ih T (fun e he => h e (by simp [he]))

/-- C2: (i) one poll tick releases the request's state (`cleanupRequest`:
interval cleared, map entry removed) exactly when the request is not yet
done, the stop indicator is absent, a chunk has been emitted
(`lastEmit > 0` after this tick's content update) and strictly more than
1500 ms have elapsed since the last content change; (ii) the tick emits a
`done:true` event — `{requestId, content: lastContent, done: true}` —
exactly in that case, and exactly one; (iii) over any whole run, at most
one `done:true` event is emitted, and nothing is emitted after it. -/
theorem c2_done_protocol :
    ∀ (rid : String) (s : RequestState) (smp : Sample) (smps : List Sample),
      ((pollTick rid s smp).1 = none ↔
        (s.done = false ∧ smp.stopVisible = false ∧
          (contentStep rid s smp).1.lastEmit > 0 ∧
          smp.now - (contentStep rid s smp).1.lastEmit > 1500)) ∧
      ((pollTick rid s smp).2.filter (fun e => e.done) =
        if (pollTick rid s smp).1 = none
        then [⟨rid, (contentStep rid s smp).1.lastContent, true⟩] else []) ∧
      countDone (runPollingAux rid s smps) ≤ 1 ∧
      ((runPollingAux rid s smps).dropWhile (fun e => !e.done)).length ≤ 1 := by
  intro rid s smp smps
  have hdone := contentStep_preserves_done rid s smp
  have hfilter : (contentStep rid s smp).2.filter (fun e => e.done) = [] := by
    rw [List.filter_eq_nil_iff]
    intro e he
    simp [contentStep_events_not_done rid s smp e he]
  refine ⟨?_, ?_, ?_, ?_⟩
  · unfold pollTick
    split_ifs with h1 h2 h3
    · rw [hdone] at h1
      simp [h1]
    · simp [h2.2]
    · simp only [Bool.not_eq_true] at h1
      rw [hdone] at h1
      simp [h1, h3.1, h3.2.1, h3.2.2]
    · constructor
      · intro h; simp at h
      · rintro ⟨hd, hs, hl, ht⟩
        exact absurd ⟨hs, hl, ht⟩ h3
  · unfold pollTick
    split_ifs <;> simp_all [hfilter]
  · obtain ⟨F, T, hFT, hF, hT⟩ := runPollingAux_structure rid smps s
    rw [hFT]
    unfold countDone
    rw [List.filter_append]
    have hFnil : F.filter (fun e => e.done) = [] := by
      rw [List.filter_eq_nil_iff]
      intro e he
      simp [hF e he]
    rw [hFnil]
    rcases hT with h | ⟨c, h⟩ <;> simp [h]
  · obtain ⟨F, T, hFT, hF, hT⟩ := runPollingAux_structure rid smps s
    rw [hFT]
    rw [dropWhile_append_of_all (fun e => !e.done) F T (by
      intro e he; simp [hF e he])]
    rcases hT with h | ⟨c, h⟩ <;> simp [h, List.dropWhile]

/-! ## Broker: `WebModelService`

`PendingRequest` and `WebModelChunkPayload` are the records of the main
process.  The liveness of a renderer (`webContents.fromId` plus
`isDestroyed`) is an environment function `alive`. -/

structure PendingRequest where
  senderId : Nat
deriving Repr, DecidableEq

structure WebModelChunkPayload where
  requestId : String
  content : Option String
  done : Option Bool
  error : Option String
deriving Repr, DecidableEq

structure BrokerState where
  pending : List (String × PendingRequest)
deriving Repr, DecidableEq

/-- `WebModelService.forwardChunk`: route an upstream payload to the
sender recorded for its `requestId`.  The second component is the
`IpcChannel.WebModel_Stream` message actually sent (target renderer id
and payload), or `none` when the event is dropped. -/
def forwardChunk (alive : Nat → Bool) (st : BrokerState)
    (p : WebModelChunkPayload) :
    BrokerState × Option (Nat × WebModelChunkPayload) :=
  match mapGet st.pending p.requestId with
  | none => (st, none)
  | some req =>
    if alive req.senderId = false then
      (⟨mapDelete st.pending p.requestId⟩, none)
    else if truthyBool p.done || truthyStr p.error then
      (⟨mapDelete st.pending p.requestId⟩, some (req.senderId, p))
    else (st, some (req.senderId, p))

/-- The `web-model:error` IPC handler: re-forward with
`error: payload.error ?? 'Unknown error'` and `done: true`. -/
def errorIntake (alive : Nat → Bool) (st : BrokerState)
    (p : WebModelChunkPayload) :
    BrokerState × Option (Nat × WebModelChunkPayload) :=
  forwardChunk alive st
    { requestId := p.requestId, content := p.content, done := some true,
      error := some (p.error.getD "Unknown error") }

/-- `WebModelService.cancel`: early-return on a falsy id, otherwise send
`web-model:cancel` downstream (only if a window exists — optional
chaining) and drop the pending record.  The second component is the
requestId of the downstream cancel message, if one was sent. -/
def serviceCancel (windowExists : Bool) (st : BrokerState) (rid : String) :
    BrokerState × Option String :=
  if rid = "" then (st, none)
  else (⟨mapDelete st.pending rid⟩, if windowExists then some rid else none)

/-! ## Façade: `WebModelClient`

A listener record holds the caller-supplied callback pair; `cbId`
identifies that pair (two different `sendMessage` calls supply two
different closures), and the presence flags model the optional
callbacks (`onUpdate?.`, `onError?.`).  The observable output of
`handleEvent` is the list of callback invocations. -/

structure StreamCallbacks where
  cbId : Nat
  hasOnUpdate : Bool
  hasOnError : Bool
deriving Repr, DecidableEq

inductive FacadeCall where
  | update (cbId : Nat) (content : String) (isDone : Bool)
  | err (cbId : Nat) (message : String)
deriving Repr, DecidableEq

structure ClientState where
  listeners : List (String × StreamCallbacks)
deriving Repr, DecidableEq

/-- `WebModelClient.handleEvent`. -/
def handleEvent (st : ClientState) (p : WebModelChunkPayload) :
    ClientState × List FacadeCall :=
  match mapGet st.listeners p.requestId with
  | none => (st, [])
  | some l =>
    if truthyStr p.error then
      (⟨mapDelete st.listeners p.requestId⟩,
        if l.hasOnError then [.err l.cbId (p.error.getD "")] else [])
    else
      let calls := match p.content with
        | some c => if l.hasOnUpdate then [.update l.cbId c (truthyBool p.done)] else []
        | none => []
      if truthyBool p.done then (⟨mapDelete st.listeners p.requestId⟩, calls)
      else (st, calls)

/-- `WebModelClient.cancel`: early-return on a falsy id, otherwise
forward the cancel to the broker (second component) and drop the
listener record. -/
def clientCancel (st : ClientState) (rid : String) : ClientState × Bool :=
  if rid = "" then (st, false)
  else (⟨mapDelete st.listeners rid⟩, true)

/-- Fold of `handleEvent` over a payload sequence, collecting every
callback invocation in delivery order. -/
def runHandleEvents : ClientState → List WebModelChunkPayload →
    ClientState × List FacadeCall
  | st, [] => (st, [])
  | st, p :: rest =>
    let h := handleEvent st p
    let r := runHandleEvents h.1 rest
    (r.1, h.2 ++ r.2)

/-- The payload the Observer's `ipcRenderer.send('web-model:chunk', …)`
produces for one chunk event. -/
def chunkPayload (e : ChunkEvent) : WebModelChunkPayload :=
  { requestId := e.requestId, content := some e.content,
    done := some e.done, error := none }

/-- End-to-end delivery: each upstream payload runs through the Broker;
payloads the Broker forwards are handed to the Façade of the receiving
renderer (one renderer modelled), collecting its callback invocations. -/
def deliver (alive : Nat → Bool) :
    BrokerState → ClientState → List WebModelChunkPayload →
    BrokerState × ClientState × List FacadeCall
  | bs, cs, [] => (bs, cs, [])
  | bs, cs, p :: rest =>
    match forwardChunk alive bs p with
    | (bs1, none) => deliver alive bs1 cs rest
    | (bs1, some (_, pl)) =>
      let h := handleEvent cs pl
      let r := deliver alive bs1 h.1 rest
      (r.1, r.2.1, h.2 ++ r.2.2)

/-! ## Map lemmas -/

/-- Deleting a key really removes it. -/
theorem mapGet_mapDelete {α : Type} (m : List (String × α)) (k : String) :
    mapGet (mapDelete m k) k = none := by
  induction m with
  | nil => rfl
  | cons e rest ih =>
    by_cases h : e.1 = k
    · simp [mapDelete, h] at ih ⊢
      exact ih
    · simp [mapDelete, h] at ih ⊢
      simp [mapGet, h]
      exact ih

/-- Deleting an absent key changes nothing. -/
theorem mapDelete_of_get_none {α : Type} :
    ∀ (m : List (String × α)) (k : String),
      mapGet m k = none → mapDelete m k = m := by
  intro m
  induction m with
  | nil => intro k _; rfl
  | cons e rest ih =>
    intro k h
    by_cases he : e.1 = k
    · simp [mapGet, he] at h
    · simp [mapGet, he] at h
      simp [mapDelete, he] at ih ⊢
      exact ih k h

/-! ## Claim C3: one terminal delivery per identifier, late events inert -/

/-- A payload the protocol treats as terminal (`done` truthy or `error`
truthy). -/
def isTerminalPayload (p : WebModelChunkPayload) : Bool :=
  truthyStr p.error || truthyBool p.done

/-- A callback invocation that is terminal for the caller: `onError`, or
`onUpdate` with `done = true`. -/
def isTerminalCall : FacadeCall → Bool
  | .update _ _ d => d
  | .err _ _ => true

def countTerminalCalls (cs : List FacadeCall) : Nat :=
  (cs.filter isTerminalCall).length

/-- An event whose listener record is gone is dropped whole. -/
theorem handleEvent_drop (cs : ClientState) (p : WebModelChunkPayload)
    (h : mapGet cs.listeners p.requestId = none) :
    handleEvent cs p = (cs, []) := by
  simp [handleEvent, h]

/-- After the Façade processes a terminal payload, the listener record
for that identifier is gone. -/
theorem handleEvent_terminal_removes (cs : ClientState)
    (p : WebModelChunkPayload) (h : isTerminalPayload p = true) :
    mapGet (handleEvent cs p).1.listeners p.requestId = none := by
  unfold handleEvent
  cases hg : mapGet cs.listeners p.requestId with
  | none => simpa using hg
  | some l =>
    by_cases he : truthyStr p.error = true
    · simp [he, mapGet_mapDelete]
    · have hd : truthyBool p.done = true := by
        unfold isTerminalPayload at h
        simp [he] at h
        simpa using h
      simp [he, hd, mapGet_mapDelete]

/-- One `handleEvent` makes at most one callback invocation. -/
theorem handleEvent_calls_length (cs : ClientState)
    (p : WebModelChunkPayload) : (handleEvent cs p).2.length ≤ 1 := by
  unfold handleEvent
  cases hg : mapGet cs.listeners p.requestId with
  | none => simp
  | some l =>
    by_cases he : truthyStr p.error = true
    · by_cases hl : l.hasOnError = true <;> simp [he, hl]
    · cases hc : p.content with
      | none =>
        by_cases hd : truthyBool p.done = true <;> simp [he, hc, hd]
      | some c =>
        by_cases hd : truthyBool p.done = true <;>
          by_cases hl : l.hasOnUpdate = true <;> simp [he, hc, hd, hl]

/-- A non-terminal payload produces no terminal invocation and leaves
the state unchanged. -/
theorem handleEvent_nonterminal (cs : ClientState) (p : WebModelChunkPayload)
    (h : isTerminalPayload p = false) :
    (handleEvent cs p).1 = cs ∧
      countTerminalCalls (handleEvent cs p).2 = 0 := by
  unfold isTerminalPayload at h
  rw [Bool.or_eq_false_iff] at h
  unfold handleEvent
  cases hg : mapGet cs.listeners p.requestId with
  | none => simp [countTerminalCalls]
  | some l =>
    cases hc : p.content with
    | none => simp [h.1, h.2, hc, countTerminalCalls]
    | some c =>
      by_cases hl : l.hasOnUpdate = true <;>
        simp [h.1, h.2, hc, hl, countTerminalCalls, isTerminalCall]

/-- Once the listener record is gone, a whole sequence of same-id events
produces nothing. -/
theorem runHandleEvents_drop (r : String) :
    ∀ (ps : List WebModelChunkPayload) (cs : ClientState),
      (∀ q ∈ ps, q.requestId = r) → mapGet cs.listeners r = none →
      runHandleEvents cs ps = (cs, []) := by
  intro ps
  induction ps with
  | nil => intro cs _ _; rfl
  | cons p rest ih =>
    intro cs hall hnone
    have hp : p.requestId = r := hall p (by simp)
    have hd : handleEvent cs p = (cs, []) :=
      handleEvent_drop cs p (by rw [hp]; exact hnone)
    have hrest : ∀ q ∈ rest, q.requestId = r := fun q hq => hall q (by simp [hq])
    simp [runHandleEvents, hd, ih cs hrest hnone]

/-- At most one terminal invocation over a same-id event sequence. -/
theorem runHandleEvents_terminal_once (r : String) :
    ∀ (ps : List WebModelChunkPayload) (cs : ClientState),
      (∀ q ∈ ps, q.requestId = r) →
      countTerminalCalls (runHandleEvents cs ps).2 ≤ 1 := by
  intro ps
  induction ps with
  | nil => intro cs _; simp [runHandleEvents, countTerminalCalls]
  | cons p rest ih =>
    intro cs hall
    have hp : p.requestId = r := hall p (by simp)
    have hrest : ∀ q ∈ rest, q.requestId = r := fun q hq => hall q (by simp [hq])
    by_cases ht : isTerminalPayload p = true
    · have hnone : mapGet (handleEvent cs p).1.listeners r = none := by
        rw [← hp]; exact handleEvent_terminal_removes cs p ht
      have hdrop := runHandleEvents_drop r rest (handleEvent cs p).1 hrest hnone
      have hlen := handleEvent_calls_length cs p
      simp only [runHandleEvents, hdrop]
      unfold countTerminalCalls
      have h1 : (((handleEvent cs p).2 ++ []).filter isTerminalCall).length ≤
          ((handleEvent cs p).2 ++ []).length := List.length_filter_le _ _
      have h2 : ((handleEvent cs p).2 ++ []).length ≤ 1 := by simpa using hlen
      exact le_trans h1 h2
    · have hnt := handleEvent_nonterminal cs p (by simpa using ht)
      have hih := ih (handleEvent cs p).1 hrest
      simp only [runHandleEvents]
      unfold countTerminalCalls
      rw [List.filter_append, List.length_append]
      have h0 : ((handleEvent cs p).2.filter isTerminalCall).length = 0 := hnt.2
      rw [h0]
      simpa [countTerminalCalls] using hih

/-- C3: at most one terminal event is ever delivered per request
identifier, and after a terminal event (or a cancel) late same-id events
are inert: (i) the Broker drops an event whose pending record is gone;
(ii) the Façade drops an event whose listener record is gone; (iii)
processing a terminal event removes the listener record; (iv) cancel
removes the listener record; (v) after the Façade processes a terminal
event, any sequence of later events with the same identifier produces no
callback invocation at all; (vi) over any same-id event sequence at most
one terminal invocation is made. -/
theorem c3_terminal_once :
    ∀ (alive : Nat → Bool) (bs : BrokerState) (cs : ClientState)
      (p : WebModelChunkPayload) (r : String)
      (ps : List WebModelChunkPayload),
      (mapGet bs.pending p.requestId = none →
        forwardChunk alive bs p = (bs, none)) ∧
      (mapGet cs.listeners p.requestId = none →
        handleEvent cs p = (cs, [])) ∧
      (isTerminalPayload p = true →
        mapGet (handleEvent cs p).1.listeners p.requestId = none) ∧
      (r ≠ "" → mapGet (clientCancel cs r).1.listeners r = none) ∧
      (isTerminalPayload p = true → (∀ q ∈ ps, q.requestId = p.requestId) →
        (runHandleEvents (handleEvent cs p).1 ps).2 = []) ∧
      ((∀ q ∈ ps, q.requestId = r) →
        countTerminalCalls (runHandleEvents cs ps).2 ≤ 1) := by
  intro alive bs cs p r ps
  refine ⟨?_, handleEvent_drop cs p, handleEvent_terminal_removes cs p, ?_, ?_, ?_⟩
  · intro h
    simp [forwardChunk, h]
  · intro h
    simp [clientCancel, h, mapGet_mapDelete]
  · intro ht hall
    have := runHandleEvents_drop p.requestId ps (handleEvent cs p).1 hall
      (handleEvent_terminal_removes cs p ht)
    simp [this]
  · exact runHandleEvents_terminal_once r ps cs

/-- C3 witness: a concrete state with one listener, a terminal event and
two late events for the same identifier. -/
theorem c3_terminal_once_witness :
    forwardChunk (fun _ => true) ⟨[]⟩
        ⟨"w3", some "x", some false, none⟩ = (⟨[]⟩, none) ∧
    (runHandleEvents
        (handleEvent ⟨[("w3", ⟨1, true, true⟩)]⟩
          ⟨"w3", some "x", some true, none⟩).1
        [⟨"w3", some "y", some false, none⟩,
          ⟨"w3", none, none, some "late"⟩]).2 = [] ∧
    countTerminalCalls (runHandleEvents ⟨[("w3", ⟨1, true, true⟩)]⟩
        [⟨"w3", some "x", some true, none⟩,
          ⟨"w3", none, none, some "late"⟩]).2 ≤ 1 := by
  refine ⟨?_, ?_, ?_⟩
  · exact (c3_terminal_once (fun _ => true) ⟨[]⟩ ⟨[]⟩
      ⟨"w3", some "x", some false, none⟩ "w3" []).1 (by decide)
  · exact (c3_terminal_once (fun _ => true) ⟨[]⟩ ⟨[("w3", ⟨1, true, true⟩)]⟩
      ⟨"w3", some "x", some true, none⟩ "w3"
      [⟨"w3", some "y", some false, none⟩,
        ⟨"w3", none, none, some "late"⟩]).2.2.2.2.1 (by decide) (by decide)
  · exact (c3_terminal_once (fun _ => true) ⟨[]⟩ ⟨[("w3", ⟨1, true, true⟩)]⟩
      ⟨"w3", some "x", some true, none⟩ "w3"
      [⟨"w3", some "x", some true, none⟩,
        ⟨"w3", none, none, some "late"⟩]).2.2.2.2.2 (by decide)

/-! ## Claim C4: no cross-delivery between distinct identifiers -/

/-- The callback pair a Façade invocation goes to. -/
def callCbId : FacadeCall → Nat
  | .update i _ _ => i
  | .err i _ => i

/-- Every invocation `handleEvent` makes goes to the callback pair
stored under the event's own `requestId`. -/
theorem handleEvent_calls_own_listener (cs : ClientState)
    (p : WebModelChunkPayload) (c : FacadeCall)
    (hc : c ∈ (handleEvent cs p).2) :
    ∃ l, mapGet cs.listeners p.requestId = some l ∧ callCbId c = l.cbId := by
  unfold handleEvent at hc
  cases hg : mapGet cs.listeners p.requestId with
  | none => rw [hg] at hc; simp at hc
  | some l =>
    rw [hg] at hc
    refine ⟨l, rfl, ?_⟩
    by_cases he : truthyStr p.error = true
    · simp [he] at hc
      by_cases hl : l.hasOnError = true
      · simp [hl] at hc
        simp [hc, callCbId]
      · simp [hl] at hc
    · cases hcnt : p.content with
      | none =>
        simp [he, hcnt] at hc
        split at hc <;> simp at hc
      | some ct =>
        simp [he, hcnt] at hc
        by_cases hl : l.hasOnUpdate = true
        · split at hc <;> simp [hl] at hc <;> simp [hc, callCbId]
        · split at hc <;> simp [hl] at hc

/-- The Broker forwards only to the sender recorded under the event's
own `requestId`, with the payload unchanged. -/
theorem forwardChunk_target (alive : Nat → Bool) (bs : BrokerState)
    (p : WebModelChunkPayload) (sid : Nat) (pl : WebModelChunkPayload)
    (h : (forwardChunk alive bs p).2 = some (sid, pl)) :
    ∃ req, mapGet bs.pending p.requestId = some req ∧
      req.senderId = sid ∧ pl = p := by
  unfold forwardChunk at h
  split at h
  · simp at h
  · rename_i req hg
    refine ⟨req, hg, ?_⟩
    split at h
    · simp at h
    · split at h
      · simp at h
        exact ⟨h.1, h.2.symm⟩
      · simp at h
        exact ⟨h.1, h.2.symm⟩

/-- C4: an event tagged with one identifier is never delivered to the
callbacks registered for a different identifier: the Broker forwards
only to the sender stored under the event's own `requestId`, the Façade
invokes only the callback pair stored under the event's own `requestId`,
and hence an event tagged `A ≠ B` never reaches `B`'s (distinct)
callback pair. -/
theorem c4_no_cross_delivery :
    ∀ (alive : Nat → Bool) (bs : BrokerState) (cs : ClientState)
      (p : WebModelChunkPayload) (sid : Nat) (pl : WebModelChunkPayload)
      (c : FacadeCall) (b : String) (lb : StreamCallbacks),
      ((forwardChunk alive bs p).2 = some (sid, pl) →
        ∃ req, mapGet bs.pending p.requestId = some req ∧
          req.senderId = sid ∧ pl = p) ∧
      (c ∈ (handleEvent cs p).2 →
        ∃ l, mapGet cs.listeners p.requestId = some l ∧ callCbId c = l.cbId) ∧
      (mapGet cs.listeners b = some lb →
        (∀ la, mapGet cs.listeners p.requestId = some la →
          la.cbId ≠ lb.cbId) →
        c ∈ (handleEvent cs p).2 → callCbId c ≠ lb.cbId) := by
  intro alive bs cs p sid pl c b lb
  refine ⟨forwardChunk_target alive bs p sid pl,
    handleEvent_calls_own_listener cs p c, ?_⟩
  intro _ hdist hc heq
  obtain ⟨la, hla, hcb⟩ := handleEvent_calls_own_listener cs p c hc
  exact hdist la hla (by rw [← hcb, heq])

/-- C4 witness: two listeners with distinct callback pairs; the call an
event tagged "wa" produces goes to "wa"'s pair and not to "wb"'s. -/
theorem c4_no_cross_delivery_witness :
    (∃ req, mapGet (⟨[("wa", ⟨1⟩), ("wb", ⟨2⟩)]⟩ : BrokerState).pending "wa" =
        some req ∧ req.senderId = 1 ∧
        (⟨"wa", some "x", some false, none⟩ : WebModelChunkPayload) =
          ⟨"wa", some "x", some false, none⟩) ∧
    callCbId (FacadeCall.update 7 "x" false) ≠ 8 := by
  constructor
  · exact (c4_no_cross_delivery (fun _ => true) ⟨[("wa", ⟨1⟩), ("wb", ⟨2⟩)]⟩
      ⟨[("wa", ⟨7, true, true⟩), ("wb", ⟨8, true, true⟩)]⟩
      ⟨"wa", some "x", some false, none⟩ 1 ⟨"wa", some "x", some false, none⟩
      (FacadeCall.update 7 "x" false) "wb" ⟨8, true, true⟩).1 (by decide)
  · exact (c4_no_cross_delivery (fun _ => true) ⟨[("wa", ⟨1⟩), ("wb", ⟨2⟩)]⟩
      ⟨[("wa", ⟨7, true, true⟩), ("wb", ⟨8, true, true⟩)]⟩
      ⟨"wa", some "x", some false, none⟩ 1 ⟨"wa", some "x", some false, none⟩
      (FacadeCall.update 7 "x" false) "wb" ⟨8, true, true⟩).2.2
      (by decide) (by decide) (by decide)

/-! ## Claim C5: duplicate content delivery -/

/-- Contents of the `done:false` chunk events of a run. -/
def chunkContents (evs : List ChunkEvent) : List String :=
  (evs.filter (fun e => !e.done)).map (fun e => e.content)

/-- Number of `onUpdate` invocations carrying a given content value. -/
def countUpdatesWith (cs : List FacadeCall) (content : String) : Nat :=
  (cs.filter (fun c => match c with
    | .update _ ct _ => ct == content
    | .err _ _ => false)).length

/-- Page text that oscillates A, B, A while the stop indicator stays
visible. -/
def c5Samples : List Sample :=
  [⟨"A", true, 0⟩, ⟨"B", true, 400⟩, ⟨"A", true, 800⟩]

/-- The Façade invocations produced end to end by the oscillating run,
with the request pending at the Broker and its listener registered. -/
def c5Calls : List FacadeCall :=
  (deliver (fun _ => true) ⟨[("r5", ⟨1⟩)]⟩ ⟨[("r5", ⟨7, true, true⟩)]⟩
    ((runPolling "r5" c5Samples).map chunkPayload)).2.2

/-- C5 counterexample: when the sampled text oscillates A, B, A, the
Observer re-emits the value A (it only compares against the immediately
previous content), and the Façade invokes `onUpdate` twice with
content A — more than once for one distinct content value. -/
theorem c5_counterexample :
    c5Calls = [.update 7 "A" false, .update 7 "B" false,
      .update 7 "A" false] ∧
    countUpdatesWith c5Calls "A" = 2 ∧
    ¬ countUpdatesWith c5Calls "A" ≤ 1 := by
  refine ⟨rfl, rfl, ?_⟩
  decide

/-- `contentStep` either emits exactly the one fresh chunk or nothing. -/
theorem contentStep_cases (rid : String) (s : RequestState) (smp : Sample) :
    (smp.content ≠ "" ∧ smp.content ≠ s.lastContent ∧
      contentStep rid s smp =
        ({ s with lastContent := smp.content, lastEmit := smp.now },
          [⟨rid, smp.content, false⟩])) ∨
    contentStep rid s smp = (s, []) := by
  unfold contentStep
  split_ifs with h
  · exact Or.inl ⟨h.1, h.2, rfl⟩
  · exact Or.inr rfl

theorem chunkContents_append (a b : List ChunkEvent) :
    chunkContents (a ++ b) = chunkContents a ++ chunkContents b := by
  simp [chunkContents]

/-- Consecutive `done:false` chunks of one run always carry different
contents: the state's `lastContent` is exactly the previous emission. -/
theorem runPollingAux_chunk_chain (rid : String) :
    ∀ (smps : List Sample) (s : RequestState),
      List.Chain' (fun a b => a ≠ b)
        (s.lastContent :: chunkContents (runPollingAux rid s smps)) := by
  intro smps
  induction smps with
  | nil =>
    intro s
    simp [runPollingAux, chunkContents]
  | cons smp rest ih =>
    intro s
    rcases contentStep_cases rid s smp with ⟨hne, hne2, hcs⟩ | hcs <;>
      rcases pollTick_cases rid s smp with h | h <;> rw [hcs] at h
    · have hrun : runPollingAux rid s (smp :: rest) =
          [⟨rid, smp.content, false⟩] ++ runPollingAux rid
            { s with lastContent := smp.content, lastEmit := smp.now } rest := by
        simp [runPollingAux, h]
      rw [hrun, chunkContents_append]
      have hone : chunkContents [⟨rid, smp.content, false⟩] = [smp.content] := by
        simp [chunkContents]
      rw [hone]
      have hrec := ih { s with lastContent := smp.content, lastEmit := smp.now }
      exact List.chain'_cons.mpr ⟨Ne.symm hne2, hrec⟩
    · have hrun : runPollingAux rid s (smp :: rest) =
          [⟨rid, smp.content, false⟩, ⟨rid, smp.content, true⟩] := by
        simp [runPollingAux, h]
      rw [hrun]
      have hcc : chunkContents [⟨rid, smp.content, false⟩,
          ⟨rid, smp.content, true⟩] = [smp.content] := by
        simp [chunkContents]
      rw [hcc]
      exact List.chain'_cons.mpr ⟨Ne.symm hne2, List.chain'_singleton _⟩
    · have hrun : runPollingAux rid s (smp :: rest) =
          runPollingAux rid s rest := by
        simp [runPollingAux, h]
      rw [hrun]
      exact ih s
    · have hrun : runPollingAux rid s (smp :: rest) =
          [⟨rid, s.lastContent, true⟩] := by
        simp [runPollingAux, h]
      rw [hrun]
      simp [chunkContents]

/-- C5 amended: the Observer emits a `done:false` chunk exactly when the
sampled text is non-empty and differs from the previously emitted
content, so no two consecutive chunk events of a run carry the same
content.  The original claim's "at most once per distinct content
value" does not hold: a value can recur non-consecutively when the page
text oscillates, and the final `done:true` event repeats the last
content. -/
theorem c5_amended :
    ∀ (rid : String) (s : RequestState) (smp : Sample) (smps : List Sample),
      ((contentStep rid s smp).2 =
        if smp.content ≠ "" ∧ smp.content ≠ s.lastContent
        then [⟨rid, smp.content, false⟩] else []) ∧
      List.Chain' (fun a b => a ≠ b) (chunkContents (runPolling rid smps)) := by
  intro rid s smp smps
  constructor
  · unfold contentStep
    split_ifs <;> rfl
  · have h := runPollingAux_chunk_chain rid smps initialRequestState
    exact h.tail

/-! ## Claim C7: single in-flight session creation

`ensureWindow` runs on the single-threaded main process: each call
executes its synchronous prefix — the window-liveness check, the
`creatingWindowPromise` check, and (possibly) storing a fresh creation
promise — atomically, before the next concurrent call starts.
`SessionState.windowAlive` models `window && !window.isDestroyed()`;
`creating` models `creatingWindowPromise !== null`. -/

structure SessionState where
  windowAlive : Bool
  creating : Bool
deriving Repr, DecidableEq

/-- The synchronous prefix of one `ensureWindow` call.  The boolean
result is whether this call started a session-creation attempt
(`this.creatingWindowPromise = this.createWindow()`). -/
def ensureWindowSync (st : SessionState) : SessionState × Bool :=
  if st.windowAlive then (st, false)
  else if st.creating then (st, false)
  else ({ st with creating := true }, true)

/-- `n` concurrent `ensureWindow` calls arriving before the in-flight
creation resolves: their synchronous prefixes run back to back.  The
second component counts the creation attempts started. -/
def ensureWindowCalls : SessionState → Nat → SessionState × Nat
  | st, 0 => (st, 0)
  | st, n + 1 =>
    ((ensureWindowCalls (ensureWindowSync st).1 n).1,
      (if (ensureWindowSync st).2 then 1 else 0) +
        (ensureWindowCalls (ensureWindowSync st).1 n).2)

/-- A call that finds a live window, or a creation already in flight,
starts nothing and changes nothing. -/
theorem ensureWindowCalls_no_create :
    ∀ (n : Nat) (st : SessionState),
      (st.windowAlive = true ∨ st.creating = true) →
      ensureWindowCalls st n = (st, 0) := by
  intro n
  induction n with
  | zero => intro st _; rfl
  | succ n ih =>
    intro st h
    have hsync : ensureWindowSync st = (st, false) := by
      rcases h with h | h <;> simp [ensureWindowSync, h]
    simp [ensureWindowCalls, hsync, ih st h]

/-- C7: when `n + 1` calls to `ensureWindow` (as issued by
`initialize()` / `sendMessage()`) arrive while no live window exists and
none is under creation, exactly one session-creation attempt is started
— the first call stores the in-flight creation and every later call
finds `creatingWindowPromise` set and awaits it; and when a live window
already exists, any number of calls start no creation at all and leave
the state unchanged (idempotence). -/
theorem c7_single_creation :
    ∀ (st : SessionState) (n : Nat),
      (st.windowAlive = false → st.creating = false →
        (ensureWindowCalls st (n + 1)).2 = 1) ∧
      (st.windowAlive = true → ensureWindowCalls st n = (st, 0)) := by
  intro st n
  constructor
  · intro hw hc
    have hsync : ensureWindowSync st = ({ st with creating := true }, true) := by
      simp [ensureWindowSync, hw, hc]
    have hrest := ensureWindowCalls_no_create n { st with creating := true }
      (Or.inr rfl)
    simp [ensureWindowCalls, hsync, hrest]
  · intro hw
    exact ensureWindowCalls_no_create n st (Or.inl hw)

/-- C7 witness: five concurrent callers with no window and no in-flight
creation start exactly one creation; three callers on a live window
start none. -/
theorem c7_single_creation_witness :
    (ensureWindowCalls ⟨false, false⟩ 5).2 = 1 ∧
    ensureWindowCalls ⟨true, false⟩ 3 = (⟨true, false⟩, 0) :=
  ⟨(c7_single_creation ⟨false, false⟩ 4).1 rfl rfl,
    (c7_single_creation ⟨true, false⟩ 3).2 rfl⟩

/-! ## Claim C8: cancel semantics -/

/-- `cleanupRequest` of the Observer: remove the request's entry (the
cleared interval is modelled by the entry's absence). -/
def cleanupRequest (reqs : List (String × RequestState)) (rid : String) :
    List (String × RequestState) :=
  mapDelete reqs rid

/-- `cancelRequest` of the Observer: click the stop affordance if
present (second component) and discard the per-request state.  The
third component lists the upstream events this sends: none — the
function contains no `ipcRenderer.send`. -/
def cancelRequest (stopVisible : Bool)
    (reqs : List (String × RequestState)) (rid : String) :
    List (String × RequestState) × Bool × List ChunkEvent :=
  (cleanupRequest reqs rid, stopVisible, [])

/-- C8: cancel at each layer is total (never throws), immediate, and
silent: (i) the Broker's cancel removes the pending record of a
non-falsy identifier without awaiting anything, (ii) on an identifier
with no pending record it leaves the map unchanged (no-op), (iii) the
Façade's cancel removes the listener record, (iv) on an identifier with
no listener it leaves the map unchanged, and (v) the Observer's cancel
handler clicks the stop affordance exactly when it is present, discards
the request's state and emits no event at all. -/
theorem c8_cancel :
    ∀ (w : Bool) (bs : BrokerState) (cs : ClientState) (rid : String)
      (stopVis : Bool) (reqs : List (String × RequestState)),
      (rid ≠ "" → mapGet (serviceCancel w bs rid).1.pending rid = none) ∧
      (mapGet bs.pending rid = none → (serviceCancel w bs rid).1 = bs) ∧
      (rid ≠ "" → mapGet (clientCancel cs rid).1.listeners rid = none) ∧
      (mapGet cs.listeners rid = none → (clientCancel cs rid).1 = cs) ∧
      ((cancelRequest stopVis reqs rid).2.1 = stopVis ∧
        (cancelRequest stopVis reqs rid).2.2 = [] ∧
        mapGet (cancelRequest stopVis reqs rid).1 rid = none) := by
  intro w bs cs rid stopVis reqs
  refine ⟨?_, ?_, ?_, ?_, rfl, rfl, ?_⟩
  · intro h
    simp [serviceCancel, h, mapGet_mapDelete]
  · intro h
    unfold serviceCancel
    split_ifs <;> simp [mapDelete_of_get_none bs.pending rid h]
  · intro h
    simp [clientCancel, h, mapGet_mapDelete]
  · intro h
    unfold clientCancel
    split_ifs <;> simp [mapDelete_of_get_none cs.listeners rid h]
  · exact mapGet_mapDelete reqs rid

/-- C8 witness: cancel on a present id removes it; cancel on an unknown
id is a no-op on the maps; the Observer's cancel clicks the visible stop
affordance and emits nothing. -/
theorem c8_cancel_witness :
    mapGet (serviceCancel true ⟨[("w8", ⟨4⟩)]⟩ "w8").1.pending "w8" = none ∧
    (serviceCancel true ⟨[("w8", ⟨4⟩)]⟩ "gone").1 = ⟨[("w8", ⟨4⟩)]⟩ ∧
    mapGet (clientCancel ⟨[("w8", ⟨6, true, true⟩)]⟩ "w8").1.listeners "w8" =
      none ∧
    (cancelRequest true [("w8", initialRequestState)] "w8").2.2 = [] := by
  refine ⟨?_, ?_, ?_, ?_⟩
  · exact (c8_cancel true ⟨[("w8", ⟨4⟩)]⟩ ⟨[]⟩ "w8" true []).1 (by decide)
  · exact (c8_cancel true ⟨[("w8", ⟨4⟩)]⟩ ⟨[]⟩ "gone" true []).2.1 (by decide)
  · exact (c8_cancel true ⟨[]⟩ ⟨[("w8", ⟨6, true, true⟩)]⟩ "w8" true []).2.2.1
      (by decide)
  · exact (c8_cancel true ⟨[]⟩ ⟨[]⟩ "w8" true
      [("w8", initialRequestState)]).2.2.2.2.2.1

/-! ## Claim C9: submission failures become one tagged error event

`waitForSelector` re-checks the selector list every 200 ms and rejects
once `Date.now() - start > timeout`; `inputAt t` tells whether any of
the input selectors matches at time `t`, `sendButtonAt t` whether
`findSendButton` finds a button then. -/

structure PageEnv where
  inputAt : Nat → Bool
  sendButtonAt : Nat → Bool

/-- The `check` loop of `waitForSelector`: at time `t`, resolve with the
match time if an element is present, reject (`none`) if past the
deadline, otherwise re-check 200 ms later. -/
def waitLoop (present : Nat → Bool) (deadline : Nat) (t : Nat) : Option Nat :=
  if present t then some t
  else if deadline < t then none
  else waitLoop present deadline (t + 200)
termination_by deadline + 1 - t
decreasing_by omega

/-- `waitForSelector(selectors, timeout)` started at `start`:
`Date.now() - start > timeout` is `start + timeout < t`. -/
def waitForSelector (present : Nat → Bool) (start timeout : Nat) :
    Option Nat :=
  waitLoop present (start + timeout) start

/-- `submitPrompt`: wait for the input surface (default timeout 15 s),
then locate the send button; each failure throws the corresponding
message. -/
def submitPrompt (env : PageEnv) (start : Nat) : Except String Nat :=
  match waitForSelector env.inputAt start 15000 with
  | none => .error "Timed out waiting for ChatGPT input area"
  | some t =>
    if env.sendButtonAt t then .ok t
    else .error "Unable to locate ChatGPT send button. Please make sure you are signed in."

/-- A payload sent on the `web-model:error` channel. -/
structure UpError where
  requestId : String
  error : String
deriving Repr, DecidableEq

/-- The `web-model:prompt` IPC handler: try `submitPrompt`; on success
`startPolling` registers the request's state, on any exception call
`cleanupRequest` and send a single `web-model:error` event tagged with
the request id.  The handler itself never propagates the exception. -/
def promptHandler (env : PageEnv) (start : Nat) (rid : String)
    (reqs : List (String × RequestState)) :
    List (String × RequestState) × List UpError :=
  match submitPrompt env start with
  | .ok _ => (mapSet reqs rid initialRequestState, [])
  | .error msg => (cleanupRequest reqs rid, [⟨rid, msg⟩])

/-- If no input element ever appears, every check fails and the wait
rejects. -/
theorem waitLoop_none (present : Nat → Bool) (deadline : Nat)
    (h : ∀ u, present u = false) : ∀ t, waitLoop present deadline t = none := by
  have aux : ∀ m t, deadline + 1 - t ≤ m → waitLoop present deadline t = none := by
    intro m
    induction m with
    | zero =>
      intro t hm
      have hd : deadline < t := by omega
      rw [waitLoop, h t]
      simp [hd]
    | succ m ih =>
      intro t hm
      rw [waitLoop, h t]
      simp only [Bool.false_eq_true, if_false]
      split_ifs with hd
      · rfl
      · exact ih (t + 200) (by omega)
  intro t
  exact aux (deadline + 1 - t) t (le_refl _)

/-- C9: a submission failure — the input surface never appearing within
the 15 s timeout, or the send control missing — is caught inside the
`web-model:prompt` handler (the Observer does not crash: the handler
returns normally) and becomes exactly one upstream error event tagged
with the request's identifier, emitted after the request's state is
discarded: (i) with no input surface ever present the handler produces
exactly the timeout error; (ii) with the input found but no send button
the handler produces exactly the send-button error; (iii) in every case
the handler emits at most one error event and every emitted event
carries the request's id. -/
theorem c9_submission_failure :
    ∀ (env : PageEnv) (start : Nat) (rid : String)
      (reqs : List (String × RequestState)) (t : Nat),
      ((∀ u, env.inputAt u = false) →
        promptHandler env start rid reqs =
          (cleanupRequest reqs rid,
            [⟨rid, "Timed out waiting for ChatGPT input area"⟩])) ∧
      (waitForSelector env.inputAt start 15000 = some t →
        env.sendButtonAt t = false →
        promptHandler env start rid reqs =
          (cleanupRequest reqs rid,
            [⟨rid, "Unable to locate ChatGPT send button. Please make sure you are signed in."⟩])) ∧
      ((promptHandler env start rid reqs).2.length ≤ 1 ∧
        ∀ e ∈ (promptHandler env start rid reqs).2, e.requestId = rid) := by
  intro env start rid reqs t
  refine ⟨?_, ?_, ?_⟩
  · intro h
    have hw : waitForSelector env.inputAt start 15000 = none :=
      waitLoop_none env.inputAt (start + 15000) h start
    simp [promptHandler, submitPrompt, hw]
  · intro hw hb
    simp [promptHandler, submitPrompt, hw, hb]
  · unfold promptHandler
    cases hs : submitPrompt env start with
    | ok v => simp
    | error msg => simp

/-- C9 witness: a page with no input surface at all yields exactly the
tagged timeout error; a page whose input is present from t = 0 but that
has no send button yields exactly the tagged send-button error. -/
theorem c9_submission_failure_witness :
    promptHandler ⟨fun _ => false, fun _ => false⟩ 0 "w9" [] =
      ([], [⟨"w9", "Timed out waiting for ChatGPT input area"⟩]) ∧
    promptHandler ⟨fun _ => true, fun _ => false⟩ 0 "w9" [] =
      ([], [⟨"w9", "Unable to locate ChatGPT send button. Please make sure you are signed in."⟩]) := by
  constructor
  · exact (c9_submission_failure ⟨fun _ => false, fun _ => false⟩ 0 "w9" [] 0).1
      (fun u => rfl)
  · exact (c9_submission_failure ⟨fun _ => true, fun _ => false⟩ 0 "w9" [] 0).2.1
      (by rw [waitForSelector, waitLoop]; simp) rfl

/-! ## Claim C10: error events from the Observer -/

/-- C10 counterexample: an error event whose `error` field is the empty
string.  `payload.error ?? 'Unknown error'` replaces only a missing
field, so the empty string is forwarded as-is (not non-empty as
claimed); the Façade's `if (payload.error)` then sees a falsy value and
does not invoke `onError` (the claim says it does), although the
listener is still retired through the `done` branch. -/
theorem c10_counterexample :
    (errorIntake (fun _ => true) ⟨[("r10", ⟨3⟩)]⟩
        ⟨"r10", none, none, some ""⟩).2 =
      some (3, ⟨"r10", none, some true, some ""⟩) ∧
    (handleEvent ⟨[("r10", ⟨9, true, true⟩)]⟩
        ⟨"r10", none, some true, some ""⟩).2 = [] ∧
    mapGet (handleEvent ⟨[("r10", ⟨9, true, true⟩)]⟩
        ⟨"r10", none, some true, some ""⟩).1.listeners "r10" = none := by
  refine ⟨rfl, rfl, rfl⟩

/-- `onError` invocations among a call list. -/
def onErrorCalls (cs : List FacadeCall) : List FacadeCall :=
  cs.filter (fun c => match c with
    | .err _ _ => true
    | .update _ _ _ => false)

/-- C10 amended: every error event the Broker receives is forwarded with
`done = true` and `error = payload.error ?? 'Unknown error'`, and
forwarding always leaves no pending record for that identifier.  The
forwarded string is non-empty — and the Façade, if it still holds the
listener, invokes `onError` exactly once with it and retires the
listener — whenever the incoming `error` field is missing or non-empty;
an explicitly empty incoming string is forwarded as-is and silently
retires the listener without an `onError` call. -/
theorem c10_error_terminal :
    ∀ (alive : Nat → Bool) (bs : BrokerState) (cs : ClientState)
      (p : WebModelChunkPayload) (sid : Nat) (pl : WebModelChunkPayload)
      (l : StreamCallbacks),
      mapGet (errorIntake alive bs p).1.pending p.requestId = none ∧
      ((errorIntake alive bs p).2 = some (sid, pl) →
        pl = ⟨p.requestId, p.content, some true,
          some (p.error.getD "Unknown error")⟩ ∧
        ∃ req, mapGet bs.pending p.requestId = some req ∧
          req.senderId = sid) ∧
      (p.error ≠ some "" → p.error.getD "Unknown error" ≠ "") ∧
      (p.error ≠ some "" →
        mapGet cs.listeners p.requestId = some l → l.hasOnError = true →
        (errorIntake alive bs p).2 = some (sid, pl) →
        handleEvent cs pl =
          (⟨mapDelete cs.listeners p.requestId⟩,
            [.err l.cbId (p.error.getD "Unknown error")])) := by
  intro alive bs cs p sid pl l
  have hne : ∀ hp : p.error ≠ some "", p.error.getD "Unknown error" ≠ "" := by
    intro hp
    cases he : p.error with
    | none => simp
    | some s =>
      rw [he] at hp
      simp only [Option.getD]
      intro hcon
      exact hp (by rw [hcon])
  refine ⟨?_, ?_, hne, ?_⟩
  · unfold errorIntake forwardChunk
    split
    · rename_i hg
      simpa using hg
    · rename_i req hg
      split_ifs with ha ht
      · simpa using mapGet_mapDelete bs.pending p.requestId
      · simpa using mapGet_mapDelete bs.pending p.requestId
      · simp [truthyBool] at ht
  · intro hfw
    obtain ⟨req, hreq, hsid, hpl⟩ := forwardChunk_target alive bs
      { requestId := p.requestId, content := p.content, done := some true,
        error := some (p.error.getD "Unknown error") } sid pl hfw
    exact ⟨hpl, req, hreq, hsid⟩
  · intro hp hl hoe hfw
    obtain ⟨req, hreq, hsid, hpl⟩ := forwardChunk_target alive bs
      { requestId := p.requestId, content := p.content, done := some true,
        error := some (p.error.getD "Unknown error") } sid pl hfw
    rw [hpl]
    have htr : truthyStr (some (p.error.getD "Unknown error")) = true := by
      have := hne hp
      simp [truthyStr, this]
    unfold handleEvent
    simp only [hl, htr, if_true, hoe]
    simp

/-- C10 witness: an error event with a missing message is forwarded as
'Unknown error', done = true, and drives exactly one `onError` that
retires the listener. -/
theorem c10_error_terminal_witness :
    mapGet (errorIntake (fun _ => true) ⟨[("wt", ⟨2⟩)]⟩
        ⟨"wt", none, none, none⟩).1.pending "wt" = none ∧
    handleEvent ⟨[("wt", ⟨5, true, true⟩)]⟩
        ⟨"wt", none, some true, some "Unknown error"⟩ =
      (⟨[]⟩, [.err 5 "Unknown error"]) := by
  constructor
  · exact (c10_error_terminal (fun _ => true) ⟨[("wt", ⟨2⟩)]⟩ ⟨[]⟩
      ⟨"wt", none, none, none⟩ 2 ⟨"wt", none, some true, some "Unknown error"⟩
      ⟨5, true, true⟩).1
  · exact (c10_error_terminal (fun _ => true) ⟨[("wt", ⟨2⟩)]⟩
      ⟨[("wt", ⟨5, true, true⟩)]⟩ ⟨"wt", none, none, none⟩ 2
      ⟨"wt", none, some true, some "Unknown error"⟩ ⟨5, true, true⟩).2.2.2
      (by decide) (by decide) (by decide) (by decide)

end WebModel
